import Mathlib

/-!
Verification of the BaselineMCP data layer and comparison engine.

Shallow embedding of `src/data-loader.ts` (class `DataLoader`) and of
`compareFeatures` from `src/mcp-server.ts` / `src/sse-server.ts` (the two
copies are textually identical, so one Lean definition embeds both).
JavaScript `Map`s are embedded as insertion-ordered association lists,
JavaScript truthiness on strings (`""` is falsy) as the `jsStr` filter,
and `new Date(s).getFullYear()` on the ISO `YYYY-MM-DD` strings the data
uses as `getFullYear` below.
-/

namespace BaselineMCP

/-- A browser-support cell: either a version string or a boolean flag
(`string | boolean` in `types.ts`, interface `BrowserSupport`). -/
inductive SupportValue where
  | version (v : String)
  | flag (b : Bool)
deriving DecidableEq, Repr

/-- `BrowserSupport` from `types.ts`: every key optional (absent = unknown). -/
structure BrowserSupport where
  chrome : Option SupportValue := none
  edge : Option SupportValue := none
  firefox : Option SupportValue := none
  safari : Option SupportValue := none
  chrome_android : Option SupportValue := none
  firefox_android : Option SupportValue := none
  safari_ios : Option SupportValue := none
deriving DecidableEq, Repr

/-- `BaselineStatus` from `types.ts`. -/
structure BaselineStatus where
  high : Option String := none
  low : Option String := none
deriving DecidableEq, Repr

/-- The `status` object of `FeatureData` in `types.ts`. -/
structure FeatureStatus where
  experimental : Bool := false
  standard_track : Bool := false
  deprecated : Bool := false
deriving DecidableEq, Repr

/-- `FeatureData` from `types.ts`. -/
structure FeatureData where
  name : String
  description : Option String := none
  mdn_url : Option String := none
  spec_url : Option String := none
  baseline : Option BaselineStatus := none
  support : BrowserSupport := {}
  status : Option FeatureStatus := none
deriving DecidableEq, Repr

/-- `BaselineFeature` from `types.ts`. -/
structure BaselineFeature where
  name : String
  year : Nat
  quarter : Option String := none
  description : Option String := none
  mdn_url : Option String := none
deriving DecidableEq, Repr

/-- The fixed tracked browser set of `compareFeatures`
(`const browsers = ['chrome', 'edge', 'firefox', 'safari']`). -/
inductive Browser where
  | chrome
  | edge
  | firefox
  | safari
deriving DecidableEq, Repr

/-- The literal key strings of the tracked browsers. -/
def Browser.key : Browser → String
  | .chrome => "chrome"
  | .edge => "edge"
  | .firefox => "firefox"
  | .safari => "safari"

/-- `featureX.support[browser]` for a tracked browser. -/
def BrowserSupport.get (s : BrowserSupport) : Browser → Option SupportValue
  | .chrome => s.chrome
  | .edge => s.edge
  | .firefox => s.firefox
  | .safari => s.safari

/-- The loop order in `compareFeatures`. -/
def trackedBrowsers : List Browser := [.chrome, .edge, .firefox, .safari]

/-- JavaScript `String.prototype.toLowerCase()` for the ASCII strings this
dataset uses, implemented character-wise. -/
def strToLower (s : String) : String := ⟨s.data.map Char.toLower⟩

/-- JavaScript `String.prototype.trim()`: strip whitespace from both ends. -/
def strTrim (s : String) : String :=
  ⟨((s.data.dropWhile (·.isWhitespace)).reverse.dropWhile (·.isWhitespace)).reverse⟩

/-- JavaScript truthiness filter for an optional string: the empty string is
falsy, so `x || y` on strings skips `""` exactly like it skips `undefined`. -/
def jsStr : Option String → Option String
  | some s => if s = "" then none else some s
  | none => none

/-- One row of `supportDifference` (element type of
`ComparisonResult.supportDifference` in `types.ts`; `compareFeatures`
always populates `aVersion`/`bVersion` and never `difference`). -/
structure SupportRow where
  browser : String
  aVersion : String
  bVersion : String
deriving DecidableEq, Repr

/-- `baselineDifference` of `ComparisonResult` in `types.ts`. -/
structure BaselineDiff where
  yearDiff : Nat
  aFirst : Bool
deriving DecidableEq, Repr

/-- `ComparisonResult` from `types.ts`. -/
structure ComparisonResult where
  featureA : FeatureData
  featureB : FeatureData
  baselineDifference : Option BaselineDiff
  supportDifference : List SupportRow
deriving DecidableEq, Repr

/-- The per-cell normalisation in `compareFeatures`:
`typeof s === 'string' ? s : s ? 'supported' : 'not supported'`. -/
def supportLabel : Option SupportValue → String
  | some (.version v) => v
  | some (.flag true) => "supported"
  | some (.flag false) => "not supported"
  | none => "not supported"

/-- The `for (const browser of browsers)` loop of `compareFeatures`,
pushing one row per tracked browser. -/
def supportRows (a b : FeatureData) : List Browser → List SupportRow
  | [] => []
  | br :: rest =>
      { browser := br.key,
        aVersion := supportLabel (a.support.get br),
        bVersion := supportLabel (b.support.get br) } :: supportRows a b rest

/-- `featureX.baseline?.high` as used in the truthiness guard of
`compareFeatures` (`undefined` when `baseline` is absent; `""` is falsy). -/
def truthyHigh (f : FeatureData) : Option String :=
  match f.baseline with
  | none => none
  | some bl => jsStr bl.high

/-- `new Date(s).getFullYear()` for the ISO `YYYY-MM-DD` date strings this
dataset stores: the leading decimal year component. -/
def getFullYear (s : String) : Int :=
  let digits := s.data.takeWhile (fun c => c != '-')
  if digits ≠ [] ∧ digits.all (·.isDigit) then
    Int.ofNat (digits.foldl (fun n c => n * 10 + (c.toNat - 48)) 0)
  else 0

/-- `compareFeatures` from `src/mcp-server.ts` lines 257-288 (identical in
`src/sse-server.ts`). -/
def compareFeatures (featureA featureB : FeatureData) : ComparisonResult :=
  { featureA := featureA,
    featureB := featureB,
    supportDifference := supportRows featureA featureB trackedBrowsers,
    baselineDifference :=
      match truthyHigh featureA, truthyHigh featureB with
      | some ha, some hb =>
          some { yearDiff := (getFullYear ha - getFullYear hb).natAbs,
                 aFirst := decide (getFullYear ha < getFullYear hb) }
      | _, _ => none }

/-- Lookup in an insertion-ordered association list (`Map.get`). -/
def getEntry {κ α : Type} [DecidableEq κ] : List (κ × α) → κ → Option α
  | [], _ => none
  | (k', v) :: rest, k => if k' = k then some v else getEntry rest k

/-- `Map.set`: overwrite in place if the key exists, else append. -/
def setEntry {κ α : Type} [DecidableEq κ] : List (κ × α) → κ → α → List (κ × α)
  | [], k, v => [(k, v)]
  | (k', v') :: rest, k, v =>
      if k' = k then (k, v) :: rest else (k', v') :: setEntry rest k v

/-- A sequence of `Map.set` calls, one per entry, in order. -/
def insertAll {κ α : Type} [DecidableEq κ]
    (m : List (κ × α)) (entries : List (κ × α)) : List (κ × α) :=
  entries.foldl (fun acc e => setEntry acc e.1 e.2) m

/-- The fixed alias table of `normalizeFeatureName`
(`src/data-loader.ts` lines 173-179). -/
def normalizations : List (String × String) :=
  [("css :has()", "css-has-selector"),
   ("css has", "css-has-selector"),
   ("offscreen canvas", "offscreen-canvas"),
   ("web usb", "webusb"),
   ("fetch streaming", "fetch-streaming")]

/-- `normalizeFeatureName` (`src/data-loader.ts` lines 171-183):
`const lower = name.toLowerCase(); return normalizations[lower] || name;`.
Note: the input is lowercased but never trimmed. -/
def normalizeFeatureName (name : String) : String :=
  (getEntry normalizations (strToLower name)).getD name

/-- The `status` sub-object of a raw `web-features` entry, as read by the
mapping loop in `loadBCDData` (`f.status?.baseline`, `f.status?.support`,
`f.status?.experimental`, ...). -/
structure RawStatus where
  baseline : Option BaselineStatus := none
  support : Option BrowserSupport := none
  experimental : Bool := false
  standard_track : Bool := false
  deprecated : Bool := false
deriving DecidableEq, Repr

/-- A raw `web-features` entry with exactly the fields `loadBCDData`,
`getFeature` and `findFeatures` read off it (the TypeScript type is `any`). -/
structure RawFeature where
  name : Option String := none
  description : Option String := none
  summary : Option String := none
  mdn_url : Option String := none
  spec : Option String := none
  status : Option RawStatus := none
  support : Option BrowserSupport := none
  experimental : Bool := false
  standard_track : Bool := false
  deprecated : Bool := false
  compat_features : List String := []
  group : Option String := none
deriving DecidableEq, Repr

/-- The per-entry coercion of `loadBCDData` (`src/data-loader.ts` lines
48-60): builds the `FeatureData` cached under the entry's id. -/
def mapRawFeature (id : String) (f : RawFeature) : FeatureData :=
  { name := (jsStr f.name).getD id,
    description := (jsStr f.description).orElse fun _ => jsStr f.summary,
    mdn_url := jsStr f.mdn_url,
    spec_url := jsStr f.spec,
    baseline := f.status.bind (·.baseline),
    support := ((f.status.bind (·.support)).orElse fun _ => f.support).getD {},
    status := some
      { experimental := (f.status.map (·.experimental)).getD false || f.experimental,
        standard_track := (f.status.map (·.standard_track)).getD false || f.standard_track,
        deprecated := (f.status.map (·.deprecated)).getD false || f.deprecated } }

/-- `getSampleBCDData()['css-has-selector']`. -/
def cssHasSelectorFD : FeatureData :=
  { name := "CSS :has() selector",
    description := some "The :has() CSS pseudo-class represents an element if any of the selectors passed as parameters match at least one element.",
    mdn_url := some "https://developer.mozilla.org/en-US/docs/Web/CSS/:has",
    baseline := some { high := some "2023-12-01", low := some "2023-03-01" },
    support :=
      { chrome := some (.version "105"), edge := some (.version "105"),
        firefox := some (.version "121"), safari := some (.version "15.4") },
    status := some { standard_track := true } }

/-- `getSampleBCDData()['offscreen-canvas']`. -/
def offscreenCanvasFD : FeatureData :=
  { name := "OffscreenCanvas",
    description := some "The OffscreenCanvas interface provides a canvas that can be rendered off screen.",
    mdn_url := some "https://developer.mozilla.org/en-US/docs/Web/API/OffscreenCanvas",
    baseline := some { high := some "2022-03-01", low := some "2021-09-01" },
    support :=
      { chrome := some (.version "69"), edge := some (.version "79"),
        firefox := some (.version "105"), safari := some (.version "16.4") },
    status := some { standard_track := true } }

/-- `getSampleBCDData()['webusb']` (no `baseline` key). -/
def webusbFD : FeatureData :=
  { name := "WebUSB API",
    description := some "The WebUSB API provides a way to safely expose USB device services to the web.",
    mdn_url := some "https://developer.mozilla.org/en-US/docs/Web/API/USB",
    support :=
      { chrome := some (.version "61"), edge := some (.version "79"),
        firefox := some (.flag false), safari := some (.flag false) },
    status := some { experimental := true } }

/-- `getSampleBCDData()['fetch-streaming']`. -/
def fetchStreamingFD : FeatureData :=
  { name := "Fetch Streaming",
    description := some "Streaming support for the Fetch API using ReadableStream.",
    mdn_url := some "https://developer.mozilla.org/en-US/docs/Web/API/Fetch_API/Using_Fetch#processing_a_text_file_line_by_line",
    baseline := some { high := some "2022-07-01", low := some "2020-01-01" },
    support :=
      { chrome := some (.version "43"), edge := some (.version "14"),
        firefox := some (.version "65"), safari := some (.version "10.1") },
    status := some { standard_track := true } }

/-- `Object.entries(getSampleBCDData())` in source (insertion) order. -/
def sampleBCDEntries : List (String × FeatureData) :=
  [("css-has-selector", cssHasSelectorFD),
   ("offscreen-canvas", offscreenCanvasFD),
   ("webusb", webusbFD),
   ("fetch-streaming", fetchStreamingFD)]

/-- `Object.entries(getSampleBaselineData())`: integer-like keys iterate in
ascending numeric order in JavaScript (2022, 2023, 2024), each parsed with
`parseInt`. -/
def sampleBaselineEntries : List (Nat × List BaselineFeature) :=
  [(2022,
    [{ name := "offscreen-canvas", year := 2022, quarter := some "Q1",
       description := some "OffscreenCanvas API" },
     { name := "fetch-streaming", year := 2022, quarter := some "Q3",
       description := some "Fetch API streaming support" }]),
   (2023,
    [{ name := "css-has-selector", year := 2023, quarter := some "Q4",
       description := some "CSS :has() pseudo-class selector" }]),
   (2024,
    [{ name := "css-has-selector", year := 2024, quarter := some "Q1",
       description := some "CSS :has() pseudo-class selector" }])]

/-- The mutable fields of class `DataLoader` that the verified operations
touch (`groups`/`browsers`/`snapshots` are only stored and returned by
trivial accessors, so they are not embedded). A `featuresMap` value of
`none` inside the list models a `null`/`undefined` entry value in the
raw features object. -/
structure LoaderState where
  bcdCache : List (String × FeatureData) := []
  baselineCache : List (Nat × List BaselineFeature) := []
  lastUpdate : Nat := 0
  featuresMap : Option (List (String × Option RawFeature)) := none
deriving DecidableEq, Repr

/-- `new DataLoader()`: empty caches, `lastUpdate = 0`, `featuresMap = null`. -/
def initialState : LoaderState := {}

/-- `CACHE_TTL = 1000 * 60 * 60`. -/
def CACHE_TTL : Nat := 1000 * 60 * 60

/-- The environment `loadBCDData` runs in: what
`await import('web-features').catch(() => null)` and the subsequent
`mod && (mod.features || mod.default)` test produce. -/
inductive ExtOutcome where
  /-- import rejected (caught to `null`), or a module with neither a
  `features` nor a truthy `default` export: the `else` branch runs. -/
  | absent
  /-- a truthy features object was found (as `mod.features` or
  `mod.default.features`); entry values may still be `null`. -/
  | available (features : List (String × Option RawFeature))
  /-- `mod.default` truthy but no `features` export anywhere:
  `featuresMap` stays `null` and nothing is cached. -/
  | availableNoFeatures
deriving DecidableEq, Repr

/-- The `for (const [id, f] of Object.entries(this.featuresMap))` loop of
`loadBCDData`. A `null` entry value makes `f.name` throw a `TypeError`;
the writes already performed remain in the cache, which the thrown branch
therefore carries. -/
def mapEntriesLoop : List (String × FeatureData) → List (String × Option RawFeature) →
    Except (List (String × FeatureData)) (List (String × FeatureData))
  | cache, [] => .ok cache
  | cache, (id, some f) :: rest => mapEntriesLoop (setEntry cache id (mapRawFeature id f)) rest
  | cache, (_, none) :: _ => .error cache

/-- The error a rejected `loadBCDData()` promise would surface. -/
inductive LoadError where
  | thrown
deriving DecidableEq, Repr

/-- `loadBCDData` (`src/data-loader.ts` lines 25-83), with `Date.now()`
passed in as `now` and the import outcome as `ext`. The `try`/`catch`
lives inside, so a `.error` result would model an uncaught throw
escaping to the caller. -/
def loadBCDData (now : Nat) (ext : ExtOutcome) (s : LoaderState) :
    Except LoadError LoaderState :=
  if now - s.lastUpdate < CACHE_TTL ∧ 0 < s.bcdCache.length then
    .ok s
  else
    match ext with
    | .absent =>
        .ok { s with bcdCache := insertAll s.bcdCache sampleBCDEntries, lastUpdate := now }
    | .availableNoFeatures =>
        .ok { s with featuresMap := none, lastUpdate := now }
    | .available fs =>
        match mapEntriesLoop s.bcdCache fs with
        | .ok cache =>
            .ok { s with featuresMap := some fs, bcdCache := cache, lastUpdate := now }
        | .error cachePartial =>
            .ok { s with featuresMap := some fs,
                         bcdCache := insertAll cachePartial sampleBCDEntries }

/-- `loadBaselineData` (`src/data-loader.ts` lines 85-92). -/
def loadBaselineData (s : LoaderState) : LoaderState :=
  { s with baselineCache := insertAll s.baselineCache sampleBaselineEntries }

/-- The store after a bundled-sample load (`loadBCDData` with the
`web-features` package unavailable, then `loadBaselineData`), as the
server's `start()` performs it. -/
def sampleState : LoaderState :=
  loadBaselineData
    (match loadBCDData 0 .absent initialState with
     | .ok s => s
     | .error _ => initialState)

/-- `getFeature` (`src/data-loader.ts` lines 99-110). The `Sum.inr` branch
is the unconverted raw object that `return ... || (this.featuresMap[...] as
FeatureData)` hands back when the cache misses. -/
def getFeature (st : LoaderState) (name : String) : Option (FeatureData ⊕ RawFeature) :=
  let normalizedName := normalizeFeatureName name
  let fallback : Option (FeatureData ⊕ RawFeature) :=
    match getEntry st.bcdCache normalizedName with
    | some fd => some (.inl fd)
    | none => (getEntry st.bcdCache name).map .inl
  match st.featuresMap with
  | some fm =>
      match getEntry fm normalizedName with
      | some (some raw) =>
          match getEntry st.bcdCache normalizedName with
          | some fd => some (.inl fd)
          | none => some (.inr raw)
      | _ => fallback
  | none => fallback

/-- `getBaselineFeatures` (`src/data-loader.ts` lines 112-114). -/
def getBaselineFeatures (st : LoaderState) (year : Nat) : List BaselineFeature :=
  (getEntry st.baselineCache year).getD []

/-- A search result row of `findFeatures`. -/
structure SearchHit where
  id : String
  name : String
  description : String
  group : Option String
deriving DecidableEq, Repr

/-- `hay.includes(q)`: substring occurrence test. -/
def strContains (hay needle : String) : Bool :=
  (List.range (hay.data.length + 1)).any fun i => needle.data.isPrefixOf (hay.data.drop i)

/-- `Array.prototype.join(' ')`. -/
def intercalateSpace : List String → String
  | [] => ""
  | [p] => p
  | p :: rest => p ++ " " ++ intercalateSpace rest

/-- `[parts].filter(Boolean).join(' ').toLowerCase()`: the haystack built
per entry in `findFeatures` (empty strings are falsy and dropped). -/
def joinHay (parts : List String) : String :=
  strToLower (intercalateSpace (parts.filter fun p => p != ""))

/-- The hay/hit pair for one cache entry when `featuresMap` is absent:
`raw` is `undefined`, `feature` is the cached `FeatureData`. -/
def bcdCandidate (e : String × FeatureData) : String × SearchHit :=
  let id := e.1
  let f := e.2
  let name := (jsStr (some f.name)).getD id
  let description := (jsStr f.description).getD ""
  (joinHay [id, name, description],
   { id := id, name := name, description := description, group := none })

/-- The hay/hit pair for one `featuresMap` entry: `feature` is
`bcdCache.get(id) || raw`, and each display field falls back through
`feature`, then `raw`, then the default. -/
def fmCandidate (st : LoaderState) (e : String × Option RawFeature) : String × SearchHit :=
  let id := e.1
  let rawOpt := e.2
  let cacheF := getEntry st.bcdCache id
  let featureName : Option String :=
    match cacheF with
    | some fd => some fd.name
    | none => rawOpt.bind (·.name)
  let featureDesc : Option String :=
    match cacheF with
    | some fd => fd.description
    | none => rawOpt.bind (·.description)
  let name := ((jsStr featureName).orElse fun _ => jsStr (rawOpt.bind (·.name))).getD id
  let description :=
    ((jsStr featureDesc).orElse fun _ => jsStr (rawOpt.bind (·.description))).getD ""
  let group := jsStr (rawOpt.bind (·.group))
  (joinHay ([id, name, description] ++ (rawOpt.map (·.compat_features)).getD []),
   { id := id, name := name, description := description, group := group })

/-- The scan loop of `findFeatures`: stop as soon as `results.length >=
limit`, otherwise push the hit when the haystack contains the query. -/
def searchLoop (q : String) (limit : Nat) : List (String × SearchHit) → Nat → List SearchHit
  | [], _ => []
  | (hay, hit) :: rest, found =>
      if limit ≤ found then []
      else if strContains hay q then hit :: searchLoop q limit rest (found + 1)
      else searchLoop q limit rest found

/-- `findFeatures` (`src/data-loader.ts` lines 129-157). -/
def findFeatures (st : LoaderState) (query : String) (limit : Nat) : List SearchHit :=
  let q := strTrim (strToLower query)
  if q = "" then []
  else
    let candidates : List (String × SearchHit) :=
      match st.featuresMap with
      | some fm => fm.map (fmCandidate st)
      | none => st.bcdCache.map bcdCandidate
    (searchLoop q limit candidates 0).take limit

/-- `feature.baseline.high` as a plain optional field (presence, before
truthiness): the notion of "present" used by the specification. -/
def baselineHigh (f : FeatureData) : Option String :=
  f.baseline.bind (·.high)

/-- The data-model invariant "baseline.high is always a parsable date when
present", restricted to what the comparison guard observes: a present
`high` is not the empty string. -/
def highNonempty (f : FeatureData) : Bool :=
  match f.baseline with
  | some bl => bl.high != some ""
  | none => true

/-- The entries a fully-successful external load derives from the raw
features object. -/
def extMapped (fs : List (String × Option RawFeature)) : List (String × FeatureData) :=
  fs.filterMap fun e => e.2.map fun f => (e.1, mapRawFeature e.1 f)

/-- The bundled store computed out: the sample entries, baseline table,
`lastUpdate = 0` and no `featuresMap`. -/
lemma sampleState_eq :
    sampleState =
      { bcdCache := sampleBCDEntries, baselineCache := sampleBaselineEntries,
        lastUpdate := 0, featuresMap := none } := by
  decide

lemma jsStr_of_ne {s : String} (h : s ≠ "") : jsStr (some s) = some s := by
  simp [jsStr, h]

lemma getEntry_setEntry_self {κ α : Type} [DecidableEq κ]
    (m : List (κ × α)) (k : κ) (v : α) : getEntry (setEntry m k v) k = some v := by
  induction m with
  | nil => simp [setEntry, getEntry]
  | cons e rest ih =>
    obtain ⟨k', v'⟩ := e
    by_cases h : k' = k
    · simp [setEntry, h, getEntry]
    · simp [setEntry, h, getEntry, ih]

lemma getEntry_setEntry_ne {κ α : Type} [DecidableEq κ]
    (m : List (κ × α)) (k k2 : κ) (v : α) (h : k ≠ k2) :
    getEntry (setEntry m k v) k2 = getEntry m k2 := by
  induction m with
  | nil => simp [setEntry, getEntry, h]
  | cons e rest ih =>
    obtain ⟨k', v'⟩ := e
    by_cases hk : k' = k
    · subst hk; simp [setEntry, getEntry, h]
    · simp [setEntry, hk, getEntry, ih]

lemma truthyHigh_eq_of_nonempty (f : FeatureData) (h : highNonempty f = true) :
    truthyHigh f = baselineHigh f := by
  unfold truthyHigh baselineHigh
  cases hf : f.baseline with
  | none => rfl
  | some bl =>
    unfold highNonempty at h
    rw [hf] at h
    have h' : bl.high ≠ some "" := bne_iff_ne.mp h
    show jsStr bl.high = bl.high
    cases hh : bl.high with
    | none => rfl
    | some s =>
      have hs : s ≠ "" := by rintro rfl; exact h' hh
      exact jsStr_of_ne hs

/-- `mapEntriesLoop` on a features object with no `null` entries succeeds
and performs exactly the writes of `extMapped`. -/
lemma mapEntriesLoop_ok (fs : List (String × Option RawFeature)) :
    ∀ cache, (∀ e ∈ fs, e.2.isSome = true) →
      mapEntriesLoop cache fs = .ok (insertAll cache (extMapped fs)) := by
  induction fs with
  | nil => intro cache _; simp [mapEntriesLoop, extMapped, insertAll]
  | cons e rest ih =>
    intro cache hall
    obtain ⟨id, of⟩ := e
    cases of with
    | none =>
      have := hall (id, none) (List.mem_cons_self _ _)
      simp at this
    | some f =>
      have hrest : ∀ e ∈ rest, e.2.isSome = true :=
        fun e he => hall e (List.mem_cons_of_mem _ he)
      calc mapEntriesLoop cache ((id, some f) :: rest)
          = mapEntriesLoop (setEntry cache id (mapRawFeature id f)) rest := rfl
        _ = .ok (insertAll (setEntry cache id (mapRawFeature id f)) (extMapped rest)) :=
            ih _ hrest
        _ = .ok (insertAll cache (extMapped ((id, some f) :: rest))) := by
            simp [extMapped, insertAll, List.filterMap_cons]

/-- The scan loop only ever emits hits of entries it visited, in
visit order. -/
lemma searchLoop_sublist (q : String) (limit : Nat) :
    ∀ (cands : List (String × SearchHit)) (found : Nat),
      List.Sublist (searchLoop q limit cands found) (cands.map Prod.snd) := by
  intro cands
  induction cands with
  | nil => intro found; simp [searchLoop]
  | cons e rest ih =>
    intro found
    obtain ⟨hay, hit⟩ := e
    simp only [searchLoop, List.map_cons]
    by_cases h1 : limit ≤ found
    · rw [if_pos h1]; exact List.nil_sublist _
    · rw [if_neg h1]
      by_cases h2 : strContains hay q = true
      · rw [if_pos h2]; exact List.Sublist.cons₂ _ (ih _)
      · rw [if_neg h2]; exact List.Sublist.cons _ (ih _)

/-- The TTL gate of `loadBCDData`: fresh cache plus nonempty store means an
immediate, state-preserving return. -/
lemma loadBCDData_gate (now : Nat) (ext : ExtOutcome) (s : LoaderState)
    (h1 : now - s.lastUpdate < CACHE_TTL) (h2 : s.bcdCache ≠ []) :
    loadBCDData now ext s = Except.ok s := by
  unfold loadBCDData
  rw [if_pos ⟨h1, List.length_pos.mpr h2⟩]

/-- C2: for every pair of feature records, `supportDifference` is exactly
one row per tracked browser, in the fixed order chrome, edge, firefox,
safari, with each side normalised to the literal version string when the
support value is a string, `"supported"` when truthy but not a string, and
`"not supported"` otherwise (explicit `false` or absent key). -/
theorem compare_support_rows (a b : FeatureData) :
    (compareFeatures a b).supportDifference =
      [{ browser := "chrome", aVersion := supportLabel a.support.chrome,
         bVersion := supportLabel b.support.chrome },
       { browser := "edge", aVersion := supportLabel a.support.edge,
         bVersion := supportLabel b.support.edge },
       { browser := "firefox", aVersion := supportLabel a.support.firefox,
         bVersion := supportLabel b.support.firefox },
       { browser := "safari", aVersion := supportLabel a.support.safari,
         bVersion := supportLabel b.support.safari }]
    ∧ (∀ v, supportLabel (some (.version v)) = v)
    ∧ supportLabel (some (.flag true)) = "supported"
    ∧ supportLabel (some (.flag false)) = "not supported"
    ∧ supportLabel none = "not supported" :=
  ⟨rfl, fun _ => rfl, rfl, rfl, rfl⟩

/-- C3 counterexample: the claim says the input is lowercased **and
trimmed** before the alias lookup, which would send `" css has"` (whose
lowercased-and-trimmed form is the alias-table key `"css has"`) to
`css-has-selector`; the code never trims, so the input passes through
unchanged. -/
theorem normalize_no_trim_counterexample :
    strTrim (strToLower " css has") = "css has"
    ∧ getEntry normalizations "css has" = some "css-has-selector"
    ∧ normalizeFeatureName " css has" = " css has"
    ∧ " css has" ≠ "css-has-selector" := by
  decide

/-- C3 amended: `normalizeFeatureName` lowercases (but does not trim) the
input before the fixed alias-table lookup; every input whose lowercased
form is not an alias key passes through unchanged, case- and
form-preserved. -/
theorem normalize_lowercases_only (name : String) :
    (getEntry normalizations (strToLower name) = none →
      normalizeFeatureName name = name)
    ∧ (∀ v, getEntry normalizations (strToLower name) = some v →
      normalizeFeatureName name = v) := by
  constructor
  · intro h; simp [normalizeFeatureName, h]
  · intro v h; simp [normalizeFeatureName, h]

/-- C3 witness: the amended theorem applied at an aliased and a
non-aliased concrete input. -/
theorem normalize_lowercases_only_witness :
    normalizeFeatureName "Some Unknown Feature" = "Some Unknown Feature"
    ∧ normalizeFeatureName "Offscreen Canvas" = "offscreen-canvas" :=
  ⟨(normalize_lowercases_only "Some Unknown Feature").1 (by decide),
   (normalize_lowercases_only "Offscreen Canvas").2 "offscreen-canvas" (by decide)⟩

/-- C7 counterexample: `webusb` is a bundled record with no baseline, so
`compare(webusb, webusb)` carries no `baselineDifference` at all — the
claimed `yearDiff = 0` and `aFirst = false` do not exist on this result. -/
theorem self_compare_counterexample :
    getFeature sampleState "webusb" = some (.inl webusbFD)
    ∧ (compareFeatures webusbFD webusbFD).baselineDifference = none := by
  constructor
  · rw [sampleState_eq]; decide
  · decide

/-- C7 amended: self-comparison is well-defined with no special-casing:
every support row has equal sides, and `baselineDifference` is either
absent (when the record has no truthy baseline high date) or has
`yearDiff = 0` and `aFirst = false`. -/
theorem self_compare_wellDefined (a : FeatureData) :
    ((compareFeatures a a).supportDifference.all fun r => r.aVersion == r.bVersion) = true
    ∧ ((compareFeatures a a).baselineDifference = none
       ∨ (compareFeatures a a).baselineDifference = some { yearDiff := 0, aFirst := false }) := by
  constructor
  · simp [compareFeatures, supportRows, trackedBrowsers]
  · cases h : truthyHigh a with
    | none => left; simp [compareFeatures, h]
    | some s =>
      right
      simp only [compareFeatures, h]
      rw [Int.sub_self, decide_eq_false (lt_irrefl _)]
      rfl

/-- C10: id lookup is case-sensitive: when the lowercased input is not an
alias key, `getFeature` uses the input verbatim for both lookup attempts,
so mixed-case forms of canonical ids miss while the exact ids hit. -/
theorem lookup_case_sensitive (name : String)
    (h : getEntry normalizations (strToLower name) = none) :
    normalizeFeatureName name = name
    ∧ getFeature sampleState name = (getEntry sampleState.bcdCache name).map .inl
    ∧ getFeature sampleState "WEBUSB" = none
    ∧ getFeature sampleState "Css-Has-Selector" = none
    ∧ getFeature sampleState "webusb" = some (.inl webusbFD)
    ∧ getFeature sampleState "css-has-selector" = some (.inl cssHasSelectorFD) := by
  have hn : normalizeFeatureName name = name := by simp [normalizeFeatureName, h]
  refine ⟨hn, ?_, ?_, ?_, ?_, ?_⟩
  · rw [sampleState_eq]
    simp only [getFeature, hn]
    cases getEntry sampleBCDEntries name <;> rfl
  · rw [sampleState_eq]; decide
  · rw [sampleState_eq]; decide
  · rw [sampleState_eq]; decide
  · rw [sampleState_eq]; decide

/-- C10 witness: the theorem applied at `"WEBUSB"`, whose lowercase form is
not an alias key. -/
theorem lookup_case_sensitive_witness :
    normalizeFeatureName "WEBUSB" = "WEBUSB"
    ∧ getFeature sampleState "WEBUSB" = none :=
  ⟨(lookup_case_sensitive "WEBUSB" (by decide)).1,
   (lookup_case_sensitive "WEBUSB" (by decide)).2.2.1⟩

/-- C1: for records satisfying the data-model invariant (a present
baseline high date is never the empty string), the comparison result
carries `baselineDifference` exactly when both sides have a baseline high
date; in that case `yearDiff` is the absolute difference of the extracted
calendar years and `aFirst` holds exactly when `a`'s year is strictly
smaller; and on the bundled sample set,
`compare(getFeature("css-has-selector"), getFeature("offscreen-canvas"))`
has `yearDiff = 1` and `aFirst = false`. -/
theorem compare_baseline_difference (a b : FeatureData)
    (ha : highNonempty a = true) (hb : highNonempty b = true) :
    (((compareFeatures a b).baselineDifference).isSome = true ↔
      ((baselineHigh a).isSome = true ∧ (baselineHigh b).isSome = true))
    ∧ (∀ sa sb, baselineHigh a = some sa → baselineHigh b = some sb →
        (compareFeatures a b).baselineDifference =
          some { yearDiff := (getFullYear sa - getFullYear sb).natAbs,
                 aFirst := decide (getFullYear sa < getFullYear sb) })
    ∧ getFeature sampleState "css-has-selector" = some (.inl cssHasSelectorFD)
    ∧ getFeature sampleState "offscreen-canvas" = some (.inl offscreenCanvasFD)
    ∧ (compareFeatures cssHasSelectorFD offscreenCanvasFD).baselineDifference =
        some { yearDiff := 1, aFirst := false } := by
  have hA := truthyHigh_eq_of_nonempty a ha
  have hB := truthyHigh_eq_of_nonempty b hb
  refine ⟨?_, ?_, by decide, by decide, by decide⟩
  · simp only [compareFeatures, hA, hB]
    cases baselineHigh a <;> cases baselineHigh b <;> simp
  · intro sa sb hsa hsb
    simp only [compareFeatures, hA, hB, hsa, hsb]

/-- C1 witness: the theorem applied to the two bundled records of the
concrete scenario. -/
theorem compare_baseline_difference_witness :
    ((compareFeatures cssHasSelectorFD offscreenCanvasFD).baselineDifference).isSome = true :=
  (compare_baseline_difference cssHasSelectorFD offscreenCanvasFD
    (by decide) (by decide)).1.mpr ⟨by decide, by decide⟩

/-- C5: on the bundled sample store, `getFeature("CSS :has()")`,
`getFeature("css has")` and `getFeature("css-has-selector")` return the
same record; in general `getFeature` looks up the normalised id first,
falls back to the raw input as a secondary key, and returns absent (not an
error) when neither matches. -/
theorem getFeature_normalization :
    (getFeature sampleState "CSS :has()" = some (.inl cssHasSelectorFD)
     ∧ getFeature sampleState "css has" = some (.inl cssHasSelectorFD)
     ∧ getFeature sampleState "css-has-selector" = some (.inl cssHasSelectorFD))
    ∧ (∀ name, getFeature sampleState name =
        match getEntry sampleState.bcdCache (normalizeFeatureName name) with
        | some fd => some (.inl fd)
        | none => (getEntry sampleState.bcdCache name).map .inl)
    ∧ (∀ name, getEntry sampleState.bcdCache (normalizeFeatureName name) = none →
        getEntry sampleState.bcdCache name = none →
        getFeature sampleState name = none) := by
  have hgen : ∀ name, getFeature sampleState name =
      match getEntry sampleState.bcdCache (normalizeFeatureName name) with
      | some fd => some (Sum.inl fd)
      | none => (getEntry sampleState.bcdCache name).map Sum.inl := by
    intro name
    rw [sampleState_eq]
    rfl
  refine ⟨⟨by decide, by decide, by decide⟩, hgen, ?_⟩
  intro name h1 h2
  rw [hgen name, h1, h2]
  rfl

/-- C5 witness: the absence branch of the theorem applied at a name that
matches neither key. -/
theorem getFeature_normalization_witness :
    getFeature sampleState "does-not-exist" = none :=
  getFeature_normalization.2.2 "does-not-exist" (by decide) (by decide)

/-- C8: `getBaselineFeatures` is an exact-year lookup: a year absent from
the table yields the empty list (not an error), a present year yields
exactly its stored entries; on the bundled sample data, 2024 has exactly
the one `css-has-selector` entry and 1999 has none. -/
theorem baseline_year_exact_match (y : Nat)
    (hy : getEntry sampleState.baselineCache y = none) :
    getBaselineFeatures sampleState y = []
    ∧ (∀ y2 l, getEntry sampleState.baselineCache y2 = some l →
        getBaselineFeatures sampleState y2 = l)
    ∧ getBaselineFeatures sampleState 2024 =
        [{ name := "css-has-selector", year := 2024, quarter := some "Q1",
           description := some "CSS :has() pseudo-class selector" }]
    ∧ getBaselineFeatures sampleState 1999 = [] := by
  refine ⟨?_, ?_, by decide, by decide⟩
  · simp [getBaselineFeatures, hy]
  · intro y2 l h
    simp [getBaselineFeatures, h]

/-- C8 witness: the theorem applied at the absent year 1999. -/
theorem baseline_year_exact_match_witness :
    getBaselineFeatures sampleState 1999 = [] :=
  (baseline_year_exact_match 1999 (by decide)).1

/-- C6: `loadBCDData` is idempotent under the TTL gate: whenever `now -
lastUpdate < CACHE_TTL` and the store is non-empty it returns immediately
without modifying any state, so a second call within the TTL window leaves
the snapshot of the first call untouched. -/
theorem load_ttl_idempotent (now now2 : Nat) (ext ext2 : ExtOutcome) (s : LoaderState) :
    (now - s.lastUpdate < CACHE_TTL → s.bcdCache ≠ [] →
      loadBCDData now ext s = Except.ok s)
    ∧ (∀ s1, loadBCDData now ext s = Except.ok s1 →
        now2 - s1.lastUpdate < CACHE_TTL → s1.bcdCache ≠ [] →
        loadBCDData now2 ext2 s1 = Except.ok s1) := by
  constructor
  · intro h1 h2
    exact loadBCDData_gate now ext s h1 h2
  · intro s1 _ h1 h2
    exact loadBCDData_gate now2 ext2 s1 h1 h2

/-- C6 witness: a second load ten milliseconds after a populated load is a
no-op on a concrete sample-populated state. -/
theorem load_ttl_idempotent_witness :
    loadBCDData 10 .absent { bcdCache := sampleBCDEntries } =
      Except.ok { bcdCache := sampleBCDEntries } :=
  (load_ttl_idempotent 10 0 .absent .absent { bcdCache := sampleBCDEntries }).1
    (by decide) (by decide)

set_option maxRecDepth 100000

/-- C9: `findFeatures` returns at most `limit` results, in dataset
iteration order (its output is a sublist of the per-entry hit list taken in
store order); an empty or whitespace-only query returns `[]` immediately;
and on the bundled store the query `"s"` matches all four records but
`limit = 1` truncates the result to one. -/
theorem search_limit_and_order (st : LoaderState) (query : String) (limit : Nat) :
    (findFeatures st query limit).length ≤ limit
    ∧ List.Sublist (findFeatures st query limit)
        ((match st.featuresMap with
          | some fm => fm.map (fmCandidate st)
          | none => st.bcdCache.map bcdCandidate).map Prod.snd)
    ∧ (strTrim (strToLower query) = "" → findFeatures st query limit = [])
    ∧ findFeatures sampleState "" limit = []
    ∧ findFeatures sampleState "   " limit = []
    ∧ (findFeatures sampleState "s" 1).length = 1
    ∧ (findFeatures sampleState "s" 10).length = 4 := by
  have hempty : strTrim (strToLower "") = "" := by decide
  have hws : strTrim (strToLower "   ") = "" := by decide
  refine ⟨?_, ?_, ?_, by simp [findFeatures, hempty], by simp [findFeatures, hws],
    by decide, by decide⟩
  · by_cases hq : strTrim (strToLower query) = ""
    · simp [findFeatures, hq]
    · simp only [findFeatures]
      rw [if_neg hq, List.length_take]
      exact min_le_left _ _
  · by_cases hq : strTrim (strToLower query) = ""
    · simp [findFeatures, hq]
    · simp only [findFeatures]
      rw [if_neg hq]
      exact (List.take_sublist _ _).trans (searchLoop_sublist _ _ _ _)
  · intro h
    simp [findFeatures, h]

/-- C9 witness: the whitespace-only-query branch of the theorem applied at
a concrete query and limit. -/
theorem search_limit_and_order_witness :
    findFeatures initialState "   " 7 = [] :=
  (search_limit_and_order initialState "   " 7).2.2.1 (by decide)

instance : DecidableEq (Except LoadError LoaderState) := fun x y =>
  match x, y with
  | .ok a, .ok b =>
      if h : a = b then isTrue (congrArg Except.ok h)
      else isFalse fun hh => h (Except.ok.inj hh)
  | .error a, .error b =>
      if h : a = b then isTrue (congrArg Except.error h)
      else isFalse fun hh => h (Except.error.inj hh)
  | .ok _, .error _ => isFalse fun hh => Except.noConfusion hh
  | .error _, .ok _ => isFalse fun hh => Except.noConfusion hh

/-- A minimal well-formed raw features entry. -/
def extRawA : RawFeature := { name := some "Feature A" }

/-- C4 counterexample: a features object whose second entry is `null`
throws (`f.name` on `null`) after the first entry was already written; the
`catch` block then inserts the bundled sample set on top, leaving the store
a merge of one external-derived entry and all four bundled entries — the
partial merge the claim says is never produced. -/
theorem load_no_partial_merge_counterexample :
    loadBCDData 0 (.available [("ext-a", some extRawA), ("ext-b", none)]) initialState =
      Except.ok
        { bcdCache := ("ext-a", mapRawFeature "ext-a" extRawA) :: sampleBCDEntries,
          baselineCache := [], lastUpdate := 0,
          featuresMap := some [("ext-a", some extRawA), ("ext-b", none)] }
    ∧ getEntry (("ext-a", mapRawFeature "ext-a" extRawA) :: sampleBCDEntries) "ext-a" =
        some (mapRawFeature "ext-a" extRawA)
    ∧ getEntry (("ext-a", mapRawFeature "ext-a" extRawA) :: sampleBCDEntries) "webusb" =
        some webusbFD := by
  decide

/-- After the fallback insertion, all four bundled records are present
whatever the cache held before. -/
lemma insertAll_sample_keys (c : List (String × FeatureData)) :
    getEntry (insertAll c sampleBCDEntries) "css-has-selector" = some cssHasSelectorFD
    ∧ getEntry (insertAll c sampleBCDEntries) "offscreen-canvas" = some offscreenCanvasFD
    ∧ getEntry (insertAll c sampleBCDEntries) "webusb" = some webusbFD
    ∧ getEntry (insertAll c sampleBCDEntries) "fetch-streaming" = some fetchStreamingFD := by
  have e : insertAll c sampleBCDEntries =
      setEntry (setEntry (setEntry (setEntry c "css-has-selector" cssHasSelectorFD)
        "offscreen-canvas" offscreenCanvasFD) "webusb" webusbFD)
        "fetch-streaming" fetchStreamingFD := rfl
  rw [e]
  refine ⟨?_, ?_, ?_, ?_⟩
  · rw [getEntry_setEntry_ne _ _ _ _ (by decide), getEntry_setEntry_ne _ _ _ _ (by decide),
      getEntry_setEntry_ne _ _ _ _ (by decide), getEntry_setEntry_self]
  · rw [getEntry_setEntry_ne _ _ _ _ (by decide), getEntry_setEntry_ne _ _ _ _ (by decide),
      getEntry_setEntry_self]
  · rw [getEntry_setEntry_ne _ _ _ _ (by decide), getEntry_setEntry_self]
  · rw [getEntry_setEntry_self]

/-- C4 amended: `loadBCDData` never surfaces an error; from a fresh store
an absent source populates exactly the bundled sample set and a fully
successful external source populates exactly the external-derived entries
(one source per execution); on a throwing source the bundled sample set is
inserted on top of whatever partial external writes already happened (so a
mid-population throw can leave a merged store), `lastUpdate` is not reset,
and after any fallback the store contains all four bundled records. -/
theorem load_fallback (now : Nat) (ext : ExtOutcome) :
    (∀ s, ∃ s', loadBCDData now ext s = Except.ok s')
    ∧ (∀ s', loadBCDData now .absent initialState = Except.ok s' →
        s'.bcdCache = sampleBCDEntries)
    ∧ (∀ fs s', (∀ e ∈ fs, e.2.isSome = true) →
        loadBCDData now (.available fs) initialState = Except.ok s' →
        s'.bcdCache = insertAll [] (extMapped fs))
    ∧ (∀ s fs cachePartial s',
        ¬(now - s.lastUpdate < CACHE_TTL ∧ 0 < s.bcdCache.length) →
        mapEntriesLoop s.bcdCache fs = Except.error cachePartial →
        loadBCDData now (.available fs) s = Except.ok s' →
        s'.bcdCache = insertAll cachePartial sampleBCDEntries
        ∧ s'.lastUpdate = s.lastUpdate)
    ∧ (∀ s s', ¬(now - s.lastUpdate < CACHE_TTL ∧ 0 < s.bcdCache.length) →
        loadBCDData now .absent s = Except.ok s' →
        s'.bcdCache = insertAll s.bcdCache sampleBCDEntries)
    ∧ (∀ c : List (String × FeatureData),
        getEntry (insertAll c sampleBCDEntries) "css-has-selector" = some cssHasSelectorFD
        ∧ getEntry (insertAll c sampleBCDEntries) "webusb" = some webusbFD) := by
  have hg0 : ¬(now - initialState.lastUpdate < CACHE_TTL ∧ 0 < initialState.bcdCache.length) := by
    simp [initialState]
  refine ⟨?_, ?_, ?_, ?_, ?_, ?_⟩
  · intro s
    by_cases hg : now - s.lastUpdate < CACHE_TTL ∧ 0 < s.bcdCache.length
    · exact ⟨s, by unfold loadBCDData; rw [if_pos hg]⟩
    · cases ext with
      | absent =>
        exact ⟨{ s with bcdCache := insertAll s.bcdCache sampleBCDEntries, lastUpdate := now },
          by simp only [loadBCDData, if_neg hg]⟩
      | availableNoFeatures =>
        exact ⟨{ s with featuresMap := none, lastUpdate := now },
          by simp only [loadBCDData, if_neg hg]⟩
      | available fs =>
        cases hm : mapEntriesLoop s.bcdCache fs with
        | ok cache =>
          exact ⟨{ s with featuresMap := some fs, bcdCache := cache, lastUpdate := now },
            by simp only [loadBCDData, if_neg hg, hm]⟩
        | error cachePartial =>
          exact ⟨{ s with featuresMap := some fs,
                          bcdCache := insertAll cachePartial sampleBCDEntries },
            by simp only [loadBCDData, if_neg hg, hm]⟩
  · intro s' h
    simp only [loadBCDData, if_neg hg0] at h
    injection h with h
    subst h
    rfl
  · intro fs s' hall h
    simp only [loadBCDData, if_neg hg0,
      mapEntriesLoop_ok fs initialState.bcdCache hall] at h
    injection h with h
    subst h
    rfl
  · intro s fs cachePartial s' hg hm h
    simp only [loadBCDData, if_neg hg, hm] at h
    injection h with h
    subst h
    exact ⟨rfl, rfl⟩
  · intro s s' hg h
    simp only [loadBCDData, if_neg hg] at h
    injection h with h
    subst h
    rfl
  · intro c
    have hk := insertAll_sample_keys c
    exact ⟨hk.1, hk.2.2.1⟩

/-- C4 witness: the absent-source branch of the theorem applied at a
concrete time, producing the exact bundled store. -/
theorem load_fallback_witness :
    ({ bcdCache := sampleBCDEntries, baselineCache := [], lastUpdate := 7,
       featuresMap := none } : LoaderState).bcdCache = sampleBCDEntries :=
  (load_fallback 7 .absent).2.1
    { bcdCache := sampleBCDEntries, baselineCache := [], lastUpdate := 7,
      featuresMap := none }
    (by decide)

end BaselineMCP
